import Mathlib

/-!
Shallow embedding of the TIHLDE Deploy-receiver service (the Express app in
`index.js` together with `config.js`).  JavaScript strings are Lean `String`s;
`undefined` is `Option.none`; the in-memory `Map` of per-repository deploy
locks is modelled by the characteristic function of its key set (the only
value the code ever stores is `true`); the filesystem and the child process
are abstract inputs to the request handler.
-/

/-- A value appearing in a request-header slot (`req.headers[...]`): a string,
or an array of strings when the client repeats the header.  An absent header
(`undefined`) is modelled as `Option.none` at use sites. -/
inductive JsVal where
  | str (s : String)
  | arr (l : List String)
deriving DecidableEq

/-- JavaScript truthiness of a header value: the empty string is falsy, every
other string and every array (even the empty one) is truthy. -/
def jsTruthy : JsVal → Bool
  | .str s => !(s == "")
  | .arr _ => true

/-- The guard `typeof v === "string"`. -/
def jsIsString : JsVal → Bool
  | .str _ => true
  | .arr _ => false

/-- Model of `timingSafeEqual(a, b)` from index.js: any non-string argument yields
`false`; otherwise the two strings are turned into UTF-8 buffers
(`Buffer.from`), unequal byte lengths yield `false`, and equal-length buffers
are handed to `crypto.timingSafeEqual`, which decides byte-for-byte equality
(UTF-8 encoding is injective, so buffer equality is string equality). -/
def timingSafeEqual : JsVal → JsVal → Bool
  | .str a, .str b =>
      if a.utf8ByteSize ≠ b.utf8ByteSize then false
      else a == b
  | _, _ => false

/-- Structural time-cost model of `timingSafeEqual`: one unit for the type
check, one unit per byte for each `Buffer.from`, one unit for the length
comparison, and — only when the lengths agree — one unit per byte for
`crypto.timingSafeEqual`, whose documented contract is constant time in the
buffer contents (its running time depends only on the buffer length).  The
cost therefore depends only on the arguments' types and byte lengths, never
on their contents. -/
def timingSafeEqualCost : JsVal → JsVal → Nat
  | .str a, .str b =>
      1 + a.utf8ByteSize + b.utf8ByteSize + 1 +
        (if a.utf8ByteSize = b.utf8ByteSize then a.utf8ByteSize else 0)
  | _, _ => 1

/-- The in-memory `deployLocks` map, as the characteristic function of its
key set. -/
def LockTable : Type := String → Bool

/-- Model of `acquireLock(repo)`: returns `false` leaving the map untouched when an
entry is present, otherwise stores `true` under `repo` and returns `true`. -/
def acquireLock (repo : String) (locks : LockTable) : Bool × LockTable :=
  if locks repo then (false, locks)
  else (true, fun r => if r = repo then true else locks r)

/-- Model of `releaseLock(repo)`: `deployLocks.delete(repo)`, unconditional. -/
def releaseLock (repo : String) (locks : LockTable) : LockTable :=
  fun r => if r = repo then false else locks r

/-- JavaScript `str.slice(-n)` for a natural `n`: `-0` is `0`, so `n = 0`
returns the whole string; for positive `n` the start index is
`max(length - n, 0)`, which natural subtraction gives directly. -/
def jsSliceNeg (s : String) (n : Nat) : String :=
  if n = 0 then s else s.drop (s.length - n)

/-- Model of `tail(str, maxChars)` from index.js: the empty string (falsy) maps to
`""`; a string longer than `maxChars` is cut to `str.slice(-maxChars)`;
anything else is returned unchanged. -/
def tail (str : String) (maxChars : Nat) : String :=
  if str = "" then ""
  else if str.length > maxChars then jsSliceNeg str maxChars
  else str

/-- The character class `[a-zA-Z0-9._-]` shared by `REPO_SLUG_RE` and
`TAG_RE`. -/
def isSlugChar (c : Char) : Bool :=
  c.isAlpha || c.isDigit || c == '.' || c == '_' || c == '-'

/-- Model of `REPO_SLUG_RE.test s` for `/^[a-zA-Z0-9._-]{1,128}$/`: every character in
the class, between 1 and 128 of them. -/
def REPO_SLUG_RE (s : String) : Bool :=
  1 ≤ s.length && s.length ≤ 128 && s.data.all isSlugChar

/-- Model of `TAG_RE.test s` for `/^[a-zA-Z0-9._-]{1,128}$/` (textually the same
pattern as `REPO_SLUG_RE`). -/
def TAG_RE (s : String) : Bool :=
  1 ≤ s.length && s.length ≤ 128 && s.data.all isSlugChar

/-- The character class `[-a-z0-9._/]` of `IMAGE_RE` (written in the source
with the dash last). -/
def isImageChar (c : Char) : Bool :=
  c.isLower || c.isDigit || c == '.' || c == '_' || c == '/' || c == '-'

/-- Model of `IMAGE_RE.test s` for the pattern `^ghcr\.io\/[-a-z0-9._/]\x7b1,256\x7d$`
(dash written last in the source): the literal prefix `ghcr.io/` followed by
1 to 256 characters of the class. -/
def IMAGE_RE (s : String) : Bool :=
  "ghcr.io/".data.isPrefixOf s.data &&
    (let rest := s.drop 8
     1 ≤ rest.length && rest.length ≤ 256 && rest.data.all isImageChar)

/-- Model of `ENVS = new Set(["prod", "dev", ""])`. -/
def ENVS : List String := ["prod", "dev", ""]

/-- The fields of `loadConfig()` that the deploy handler reads.  `allowlist`
is `null` (`none`) when no allowlist file is configured; note that an empty
configured array is truthy in JavaScript and rejects every repo. -/
structure Config where
  appsRoot : String
  allowlist : Option (List String)
  deployTimeoutMs : Nat
  maxOutputChars : Nat
  deployReceiverToken : String

/-- The destructured request body
`const { repo, image, tag, environment, deliveryId } = req.body || {}`.
A missing field is `none`. -/
structure DeployBody where
  repo : Option String
  image : Option String
  tag : Option String
  environment : Option String
  deliveryId : Option String

/-- JavaScript truthiness of an optional string field: `undefined` and `""`
are falsy. -/
def strTruthy : Option String → Bool
  | none => false
  | some s => !(s == "")

/-- Model of `x || ""`: the default applied to the `environment` field. -/
def jsOrEmpty : Option String → String
  | none => ""
  | some s => s

/-- Model of `a || b` on two strings, as used in `result.stderr || result.stdout`. -/
def jsOrStr (a b : String) : String :=
  if a = "" then b else a

/-- The distinct early-return validation failures of the `POST /deploy`
handler, in source order. -/
inductive DeployError where
  | missingFields
  | invalidRepoSlug
  | notAllowlisted
  | invalidImage
  | invalidTag
  | invalidEnvironment
deriving DecidableEq

/-- HTTP status the handler attaches to each validation failure. -/
def errorStatus : DeployError → Nat
  | .missingFields => 400
  | .invalidRepoSlug => 400
  | .notAllowlisted => 403
  | .invalidImage => 400
  | .invalidTag => 400
  | .invalidEnvironment => 400

/-- Error message of each validation failure, as in the source. -/
def errorMessage : DeployError → String
  | .missingFields => "Missing required fields: repo, image, tag"
  | .invalidRepoSlug => "Invalid repo slug format"
  | .notAllowlisted => "Repo not in allowlist"
  | .invalidImage => "Invalid image format"
  | .invalidTag => "Invalid tag format"
  | .invalidEnvironment => "Invalid environment value"

/-- The validation prefix of the `POST /deploy` handler, in the exact order
of its early returns: required-field presence, repo-slug syntax, allowlist
membership, image syntax, tag syntax, environment membership.  Returns the
first failure, `none` when every check passes. -/
def validateDeploy (cfg : Config) (b : DeployBody) : Option DeployError :=
  if !(strTruthy b.repo && strTruthy b.image && strTruthy b.tag) then
    some .missingFields
  else
    let repo := (b.repo).getD ""
    if !(REPO_SLUG_RE repo) then some .invalidRepoSlug
    else if (match cfg.allowlist with
              | some l => !(l.contains repo)
              | none => false) then some .notAllowlisted
    else if !(IMAGE_RE ((b.image).getD "")) then some .invalidImage
    else if !(TAG_RE ((b.tag).getD "")) then some .invalidTag
    else if !(ENVS.contains (jsOrEmpty b.environment)) then
      some .invalidEnvironment
    else none

/-- Abstract view of the filesystem checks the handler performs:
`existsSync && statSync(...).isDirectory()` on the repo directory,
`existsSync` on `deploy.sh`, and `accessSync(..., X_OK)` on it. -/
structure FileSystem where
  dirExists : String → Bool
  fileExists : String → Bool
  executable : String → Bool

/-- Model of `path.join` restricted to the shapes the handler builds (a root joined
with a single component; no claim in scope depends on dot-segment
normalisation). -/
def pathJoin (a b : String) : String :=
  a ++ "/" ++ b

/-- How the awaited `runDeploy` promise terminates: `completed` is the
`close` event (`exitCode` is `none` when the child was killed by a signal,
as on timeout), `fault` a rejection (spawn failure) or any thrown error,
carrying `err.message`. -/
inductive RunOutcome where
  | completed (exitCode : Option Int) (stdout : String) (stderr : String)
  | fault (message : String)

/-- Everything observable about one handled request: HTTP status, the JSON
body fields the source sets (`ok`, optionally `repo`/`image`/`tag`,
exactly one of `output`/`error` when present), whether `runDeploy` was
invoked, and the final state of the lock map. -/
structure HandlerResult where
  status : Nat
  ok : Bool
  repo : Option String
  image : Option String
  tag : Option String
  output : Option String
  error : Option String
  spawned : Bool
  locks : LockTable

/-- The auth guard: the handler returns 401 unless the `x-deploy-token`
header is truthy and `timingSafeEqual` accepts it against the configured
token. -/
def authOk (token : Option JsVal) (secret : String) : Bool :=
  match token with
  | none => false
  | some t => jsTruthy t && timingSafeEqual t (.str secret)

/-- The `POST /deploy` handler, parametrised by the abstract filesystem, the
current lock map and the outcome the awaited `runDeploy` call would produce.
Mirrors the source's early returns: auth (401), validation (400/403),
missing repo directory or script (404), non-executable script (500), busy
lock (409); then the `try { runDeploy } catch finally { releaseLock }`
block with its success (200) and failure (500) response shaping. -/
def handleDeploy (cfg : Config) (fileSys : FileSystem) (locks : LockTable)
    (token : Option JsVal) (b : DeployBody) (run : RunOutcome) :
    HandlerResult :=
  if !(authOk token cfg.deployReceiverToken) then
    { status := 401, ok := false, repo := none, image := none, tag := none,
      output := none, error := some "Unauthorized", spawned := false,
      locks := locks }
  else match validateDeploy cfg b with
  | some e =>
    { status := errorStatus e, ok := false, repo := none, image := none,
      tag := none, output := none, error := some (errorMessage e),
      spawned := false, locks := locks }
  | none =>
    let repo := (b.repo).getD ""
    let repoDir := pathJoin cfg.appsRoot repo
    let deployScript := pathJoin repoDir "deploy.sh"
    if !(fileSys.dirExists repoDir) then
      { status := 404, ok := false, repo := none, image := none, tag := none,
        output := none, error := some ("Repo directory not found: " ++ repoDir),
        spawned := false, locks := locks }
    else if !(fileSys.fileExists deployScript) then
      { status := 404, ok := false, repo := none, image := none, tag := none,
        output := none, error := some ("deploy.sh not found in " ++ repoDir),
        spawned := false, locks := locks }
    else if !(fileSys.executable deployScript) then
      { status := 500, ok := false, repo := none, image := none, tag := none,
        output := none, error := some "deploy.sh is not executable",
        spawned := false, locks := locks }
    else match acquireLock repo locks with
    | (false, locks1) =>
      { status := 409, ok := false, repo := none, image := none, tag := none,
        output := none,
        error := some ("Deploy already in progress for " ++ repo),
        spawned := false, locks := locks1 }
    | (true, locks1) =>
      let locksFinal := releaseLock repo locks1
      match run with
      | .completed exitCode stdout stderr =>
        if exitCode = some 0 then
          { status := 200, ok := true, repo := some repo, image := b.image,
            tag := b.tag, output := some (tail stdout cfg.maxOutputChars),
            error := none, spawned := true, locks := locksFinal }
        else
          { status := 500, ok := false, repo := some repo, image := b.image,
            tag := b.tag, output := none,
            error := some (tail (jsOrStr stderr stdout) cfg.maxOutputChars),
            spawned := true, locks := locksFinal }
      | .fault message =>
        { status := 500, ok := false, repo := some repo, image := b.image,
          tag := b.tag, output := none, error := some message,
          spawned := true, locks := locksFinal }

/-- Behaviour of one spawned deploy script, abstracting the operating
system's side of the run (signal delivery and process death follow the
spec's process model; the timer logic is the source's).  `naturalExit` is
the instant (milliseconds since launch) at which the process would exit of
its own accord, `none` for a process that never finishes; `exitCode` is the
code it would then report; `heedsSigterm` says whether a graceful SIGTERM
terminates it. -/
structure ProcSpec where
  naturalExit : Option Nat
  exitCode : Int
  heedsSigterm : Bool

/-- Whether the process would exit on its own within `d` milliseconds of
launch. -/
def exitsBy (p : ProcSpec) (d : Nat) : Bool :=
  match p.naturalExit with
  | some t => t ≤ d
  | none => false

/-- The observable timeline of one `runDeploy` invocation: when (if ever)
SIGTERM and SIGKILL were issued, when the `close` event fired, and the exit
code it carried (`none` when the child died of a signal). -/
structure Timeline where
  sigtermAt : Option Nat
  sigkillAt : Option Nat
  closeAt : Nat
  exitCode : Option Int

/-- The timer ladder of `runDeploy`: a `setTimeout` armed at launch fires at
`timeoutMs` unless the `close` event has already cleared it; on firing it
sends SIGTERM and arms a second 5000 ms timer that sends SIGKILL (the kill
calls are wrapped in try/catch, so a signal aimed at an already-dead process
is harmless).  A process that exits within the timeout produces its own exit
code and no signal is ever sent; after SIGTERM a compliant process dies of
the signal (`close` reports a `null` exit code); a defiant one may still
exit on its own within the grace interval, else SIGKILL ends it at
`timeoutMs + 5000`. -/
def runTimeline (timeoutMs : Nat) (p : ProcSpec) : Timeline :=
  if exitsBy p timeoutMs then
    { sigtermAt := none, sigkillAt := none,
      closeAt := (p.naturalExit).getD 0, exitCode := some p.exitCode }
  else if p.heedsSigterm then
    { sigtermAt := some timeoutMs, sigkillAt := some (timeoutMs + 5000),
      closeAt := timeoutMs, exitCode := none }
  else if exitsBy p (timeoutMs + 5000) then
    { sigtermAt := some timeoutMs, sigkillAt := some (timeoutMs + 5000),
      closeAt := (p.naturalExit).getD 0, exitCode := some p.exitCode }
  else
    { sigtermAt := some timeoutMs, sigkillAt := some (timeoutMs + 5000),
      closeAt := timeoutMs + 5000, exitCode := none }

/-- The repository-identifier grammar `^[A-Za-z0-9._-]\x7b1,128\x7d$` stated
from the spec's words, for comparison with `REPO_SLUG_RE`. -/
def slugGrammar (s : String) : Prop :=
  1 ≤ s.length ∧ s.length ≤ 128 ∧ ∀ c ∈ s.data, isSlugChar c = true

/-- C1 counterexample: the string `".."` consists only of dots, which are in
the character class, so `REPO_SLUG_RE` accepts it — yet it contains the
substring `".."` (it is that substring), which the claim says must be
rejected. -/
theorem REPO_SLUG_RE_accepts_dotdot : REPO_SLUG_RE ".." = true := by
  decide

/-- C1 (amended): `REPO_SLUG_RE` accepts exactly the strings of the
repository-identifier grammar; it rejects the empty string, strings longer
than 128 characters, strings containing `/`, and strings containing any
character outside the class — but a string whose characters are all in the
class is accepted even when it contains `..`. -/
theorem REPO_SLUG_RE_spec (s : String) :
    (REPO_SLUG_RE s = true ↔ slugGrammar s) ∧
    (s = "" → REPO_SLUG_RE s = false) ∧
    (128 < s.length → REPO_SLUG_RE s = false) ∧
    ('/' ∈ s.data → REPO_SLUG_RE s = false) ∧
    (∀ c ∈ s.data, isSlugChar c = false → REPO_SLUG_RE s = false) := by
  have hiff : REPO_SLUG_RE s = true ↔ slugGrammar s := by
    simp [REPO_SLUG_RE, slugGrammar, List.all_eq_true, and_assoc]
  have hbad : ∀ c ∈ s.data, isSlugChar c = false → REPO_SLUG_RE s = false := by
    intro c hc hbadc
    cases h : REPO_SLUG_RE s with
    | false => rfl
    | true =>
      have := (hiff.mp h).2.2 c hc
      rw [hbadc] at this
      exact absurd this (by simp)
  refine ⟨hiff, ?_, ?_, ?_, hbad⟩
  · intro h
    subst h
    decide
  · intro h
    cases hre : REPO_SLUG_RE s with
    | false => rfl
    | true =>
      have := (hiff.mp hre).2.1
      omega
  · intro h
    exact hbad '/' h (by decide)

/-- C1 witness: a concrete in-grammar slug is accepted, and a concrete
slash-bearing string is rejected, via `REPO_SLUG_RE_spec`. -/
theorem REPO_SLUG_RE_spec_witness :
    REPO_SLUG_RE "sporty" = true ∧ REPO_SLUG_RE "a/b" = false := by
  constructor
  · exact (REPO_SLUG_RE_spec "sporty").1.mpr (by
      refine ⟨by decide, by decide, ?_⟩
      decide)
  · exact (REPO_SLUG_RE_spec "a/b").2.2.2.1 (by decide)

/-- C8 counterexample: with character budget 0 and the two-character string
"ab", the claim demands the trailing 0-character slice (the empty string),
but JavaScript's `"ab".slice(-0)` is `"ab".slice(0)`, the whole string, so
`tail` returns "ab" unchanged. -/
theorem tail_budget_zero_counterexample :
    tail "ab" 0 = "ab" ∧ ¬ tail "ab" 0 = "" := by
  constructor
  · decide
  · decide

/-- Helper: the length of `String.drop`. -/
theorem string_length_drop (s : String) (k : Nat) :
    (s.drop k).length = s.length - k := by
  show (s.drop k).data.length = s.data.length - k
  rw [String.data_drop]
  exact List.length_drop k s.data

/-- C8 (amended): for every positive character budget `n`, `tail` returns
exactly the trailing `n`-character slice of a string longer than `n` and
returns any string of at most `n` characters unchanged; `tail` is idempotent
at every budget, including 0 — but at budget 0 it returns the whole string
(see the counterexample), so positivity is required for the slicing part. -/
theorem tail_spec (s : String) (n : Nat) :
    (1 ≤ n → n < s.length →
      tail s n = s.drop (s.length - n) ∧ (tail s n).length = n) ∧
    (s.length ≤ n → tail s n = s) ∧
    tail (tail s n) n = tail s n := by
  by_cases hs : s = ""
  · subst hs
    refine ⟨?_, ?_, ?_⟩
    · intro _ h
      simp [String.length] at h
    · intro _
      rfl
    · rfl
  · by_cases hlen : s.length > n
    · have htail : tail s n = jsSliceNeg s n := by
        simp [tail, hs, hlen]
      refine ⟨?_, ?_, ?_⟩
      · intro hpos _
        have hslice : jsSliceNeg s n = s.drop (s.length - n) := by
          simp [jsSliceNeg]
          omega
        refine ⟨by rw [htail, hslice], ?_⟩
        rw [htail, hslice, string_length_drop]
        omega
      · intro h
        omega
      · rcases Nat.eq_zero_or_pos n with hn | hn
        · subst hn
          have : jsSliceNeg s 0 = s := by simp [jsSliceNeg]
          rw [htail, this, htail, this]
        · have hslice : jsSliceNeg s n = s.drop (s.length - n) := by
            simp [jsSliceNeg]
            omega
          have hlen2 : (tail s n).length = n := by
            rw [htail, hslice, string_length_drop]
            omega
          have hne : ¬ tail s n = "" := by
            intro h
            rw [h] at hlen2
            simp [String.length] at hlen2
            omega
          have hnoop : ∀ (t : String) (m : Nat), ¬ t = "" → ¬ t.length > m →
              tail t m = t := by
            intro t m h1 h2
            simp [tail, h1, h2]
          exact hnoop (tail s n) n hne (by omega)
    · have htail : tail s n = s := by
        simp [tail, hs, hlen]
      refine ⟨?_, ?_, ?_⟩
      · intro _ h
        omega
      · intro _
        exact htail
      · rw [htail, htail]

/-- C8 witness: the amended statement evaluated at the string "abcdef" with
budget 4, and at "ab" with budget 4. -/
theorem tail_spec_witness :
    tail "abcdef" 4 = "cdef" ∧ tail "ab" 4 = "ab" := by
  constructor
  · have h := ((tail_spec "abcdef" 4).1 (by decide) (by decide)).1
    rw [h]
    decide
  · exact (tail_spec "ab" 4).2.1 (by decide)

/-- C6: the lock-table operations.  When no entry for `repo` is present,
`acquireLock` returns `true` and inserts the busy marker; when one is
present it returns `false` and the table — the very same function — is
unmodified.  `releaseLock` removes the marker unconditionally, is idempotent
(releasing a non-held lock is a no-op), and a subsequent `acquireLock`
succeeds. -/
theorem lock_table_spec (repo : String) (locks : LockTable) :
    (locks repo = false →
      (acquireLock repo locks).1 = true ∧
      (acquireLock repo locks).2 repo = true) ∧
    (locks repo = true → acquireLock repo locks = (false, locks)) ∧
    releaseLock repo locks repo = false ∧
    releaseLock repo (releaseLock repo locks) = releaseLock repo locks ∧
    (acquireLock repo (releaseLock repo locks)).1 = true := by
  refine ⟨?_, ?_, ?_, ?_, ?_⟩
  · intro h
    constructor
    · simp [acquireLock, h]
    · simp [acquireLock, h]
  · intro h
    simp [acquireLock, h]
  · simp [releaseLock]
  · funext r
    simp [releaseLock]
  · simp [acquireLock, releaseLock]

/-- C6 witness: the lock-table operations evaluated on the empty table and
on a table holding the lock for "sporty". -/
theorem lock_table_spec_witness :
    (acquireLock "sporty" (fun _ => false)).1 = true ∧
    acquireLock "sporty" (fun _ => true) = (false, fun _ => true) ∧
    (acquireLock "sporty"
      (releaseLock "sporty" (fun _ => true))).1 = true := by
  refine ⟨?_, ?_, ?_⟩
  · exact ((lock_table_spec "sporty" (fun _ => false)).1 rfl).1
  · exact (lock_table_spec "sporty" (fun _ => true)).2.1 rfl
  · exact (lock_table_spec "sporty" (fun _ => true)).2.2.2.2

/-- First entry of a guard/error list whose guard fired — the shape the
spec's fixed-precedence requirement takes once the order is written down. -/
def firstFailure : List (Bool × DeployError) → Option DeployError
  | [] => none
  | (failed, e) :: rest => if failed then some e else firstFailure rest

/-- C2 counterexample: with a configured (empty) allowlist and the body
repo="sporty", image="x", tag="latest", the image field fails its syntax
check, yet the handler answers with the allowlist policy error — the policy
check runs before the image, tag and environment syntax checks, refuting the
claimed precedence existence, then all syntax, then policy. -/
theorem validation_order_counterexample :
    validateDeploy
      { appsRoot := "/home/apps", allowlist := some [],
        deployTimeoutMs := 180000, maxOutputChars := 4000,
        deployReceiverToken := "t" }
      { repo := some "sporty", image := some "x", tag := some "latest",
        environment := none, deliveryId := none } =
        some DeployError.notAllowlisted ∧
    IMAGE_RE "x" = false := by
  constructor
  · decide
  · decide

/-- C2 (amended): validation is evaluated in the fixed precedence
existence, then repo-slug syntax, then allowlist policy, then image, tag and
environment syntax — the first failing check in that order determines the
error, so the response for a given request is deterministic and
unambiguous. -/
theorem validateDeploy_order (cfg : Config) (b : DeployBody) :
    validateDeploy cfg b = firstFailure
      [ (!(strTruthy b.repo && strTruthy b.image && strTruthy b.tag),
          .missingFields),
        (!(REPO_SLUG_RE ((b.repo).getD "")), .invalidRepoSlug),
        ((match cfg.allowlist with
          | some l => !(l.contains ((b.repo).getD ""))
          | none => false), .notAllowlisted),
        (!(IMAGE_RE ((b.image).getD "")), .invalidImage),
        (!(TAG_RE ((b.tag).getD "")), .invalidTag),
        (!(ENVS.contains (jsOrEmpty b.environment)), .invalidEnvironment) ] := by
  rfl

/-- C10: `timingSafeEqual` is a total function: a non-string argument (for
example the array produced by a repeated header) yields `false` rather than
a fault, strings of different UTF-8 byte lengths yield `false` before the
crypto primitive (which would throw on unequal buffers) is ever reached,
and a request whose token header arrived as an array is answered 401. -/
theorem timingSafeEqual_total (a b : JsVal) :
    (jsIsString a = false ∨ jsIsString b = false →
      timingSafeEqual a b = false) ∧
    (∀ x y : String, a = .str x → b = .str y →
      x.utf8ByteSize ≠ y.utf8ByteSize → timingSafeEqual a b = false) ∧
    (∀ (cfg : Config) (fileSys : FileSystem) (locks : LockTable)
        (bdy : DeployBody) (run : RunOutcome) (l : List String),
      (handleDeploy cfg fileSys locks (some (.arr l)) bdy run).status
        = 401) := by
  refine ⟨?_, ?_, ?_⟩
  · intro h
    cases a <;> cases b <;>
      simp_all [timingSafeEqual, jsIsString]
  · intro x y hx hy hne
    subst hx
    subst hy
    simp [timingSafeEqual, hne]
  · intro cfg fileSys locks bdy run l
    simp [handleDeploy, authOk, jsTruthy, timingSafeEqual]

/-- C10 witness: an array-valued token header and a byte-length mismatch are
both rejected, via `timingSafeEqual_total`. -/
theorem timingSafeEqual_total_witness :
    timingSafeEqual (.arr ["a"]) (.str "s3cret") = false ∧
    timingSafeEqual (.str "ab") (.str "abc") = false := by
  constructor
  · exact (timingSafeEqual_total (.arr ["a"]) (.str "s3cret")).1 (Or.inl rfl)
  · exact (timingSafeEqual_total (.str "ab") (.str "abc")).2.1 "ab" "abc"
      rfl rfl (by decide)

/-- C9: a request whose `x-deploy-token` header fails the auth guard —
which a missing header always does — is answered with the fixed 401
response, independent of the body, the filesystem, the run outcome, and
with the lock table passed through untouched: no validation, lock access,
filesystem check or spawn contributes to it.  A missing header satisfies
the same hypothesis (second conjunct), so it is rejected identically to a
wrong token.  The structural cost of the token comparison depends only on
the candidate's UTF-8 byte length, never on which characters differ
(third conjunct). -/
theorem auth_first_spec (cfg : Config) (fileSys : FileSystem)
    (locks : LockTable) (token : Option JsVal) (b : DeployBody)
    (run : RunOutcome)
    (h : authOk token cfg.deployReceiverToken = false) :
    handleDeploy cfg fileSys locks token b run =
      { status := 401, ok := false, repo := none, image := none, tag := none,
        output := none, error := some "Unauthorized", spawned := false,
        locks := locks } ∧
    authOk none cfg.deployReceiverToken = false ∧
    (∀ s t t' : String, t.utf8ByteSize = t'.utf8ByteSize →
      timingSafeEqualCost (.str t) (.str s) =
        timingSafeEqualCost (.str t') (.str s)) := by
  refine ⟨?_, rfl, ?_⟩
  · simp [handleDeploy, h]
  · intro s t t' hlen
    simp [timingSafeEqualCost, hlen]

/-- A concrete configuration for evaluating the handler theorems. -/
def cfgW : Config :=
  { appsRoot := "/home/apps", allowlist := none, deployTimeoutMs := 180000,
    maxOutputChars := 4000, deployReceiverToken := "s3cret" }

/-- A filesystem on which every repo directory exists and every deploy.sh
is present and executable. -/
def fsW : FileSystem :=
  { dirExists := fun _ => true, fileExists := fun _ => true,
    executable := fun _ => true }

/-- A concrete well-formed deploy request body. -/
def bodyW : DeployBody :=
  { repo := some "sporty", image := some "ghcr.io/tihlde/sporty",
    tag := some "latest", environment := some "prod", deliveryId := none }

/-- C9 witness: a request with no token header gets the 401 response with
the lock table untouched, via `auth_first_spec`. -/
theorem auth_first_spec_witness :
    (handleDeploy cfgW fsW (fun _ => false) none bodyW
      (.completed (some 0) "OK" "")).status = 401 ∧
    (handleDeploy cfgW fsW (fun _ => false) none bodyW
      (.completed (some 0) "OK" "")).spawned = false := by
  have h := (auth_first_spec cfgW fsW (fun _ => false) none bodyW
    (.completed (some 0) "OK" "") rfl).1
  rw [h]
  exact ⟨rfl, rfl⟩

/-- C3: whenever a request passes auth, validation and the filesystem
checks and acquires the free per-repository lock, the handler's
`try/catch/finally` leaves the lock table with no entry for that repository
on every possible termination of the run — exit code 0, non-zero exit,
signal death after timeout (`exitCode` none), and a thrown fault including
spawn failure — because `releaseLock` runs once in the `finally` path. -/
theorem lock_released_all_paths (cfg : Config) (fileSys : FileSystem)
    (locks : LockTable) (token : Option JsVal) (b : DeployBody)
    (run : RunOutcome)
    (hauth : authOk token cfg.deployReceiverToken = true)
    (hval : validateDeploy cfg b = none)
    (hdir : fileSys.dirExists (pathJoin cfg.appsRoot ((b.repo).getD ""))
      = true)
    (hfile : fileSys.fileExists
      (pathJoin (pathJoin cfg.appsRoot ((b.repo).getD "")) "deploy.sh")
      = true)
    (hexec : fileSys.executable
      (pathJoin (pathJoin cfg.appsRoot ((b.repo).getD "")) "deploy.sh")
      = true)
    (hfree : locks ((b.repo).getD "") = false) :
    (handleDeploy cfg fileSys locks token b run).locks ((b.repo).getD "")
      = false ∧
    (handleDeploy cfg fileSys locks token b run).spawned = true := by
  cases run with
  | completed exitCode stdout stderr =>
    by_cases hec : exitCode = some 0 <;>
      simp [handleDeploy, hauth, hval, hdir, hfile, hexec, acquireLock,
        hfree, releaseLock, hec]
  | fault message =>
    simp [handleDeploy, hauth, hval, hdir, hfile, hexec, acquireLock,
      hfree, releaseLock]

/-- C3 witness: the concrete request evaluated on all four termination
kinds, via `lock_released_all_paths`. -/
theorem lock_released_all_paths_witness :
    (handleDeploy cfgW fsW (fun _ => false) (some (.str "s3cret")) bodyW
      (.completed (some 0) "OK" "")).locks "sporty" = false ∧
    (handleDeploy cfgW fsW (fun _ => false) (some (.str "s3cret")) bodyW
      (.completed (some 1) "" "boom")).locks "sporty" = false ∧
    (handleDeploy cfgW fsW (fun _ => false) (some (.str "s3cret")) bodyW
      (.completed none "" "")).locks "sporty" = false ∧
    (handleDeploy cfgW fsW (fun _ => false) (some (.str "s3cret")) bodyW
      (.fault "spawn ENOENT")).locks "sporty" = false := by
  refine ⟨?_, ?_, ?_, ?_⟩ <;>
    exact (lock_released_all_paths cfgW fsW (fun _ => false)
      (some (.str "s3cret")) bodyW _ (by decide) (by decide) rfl rfl rfl
      rfl).1

/-- C4: when the lock for the repository is already held, the handler
answers 409 with the busy message, spawns nothing, and returns the lock
table exactly as it was; the 409 status is distinct from every validation
status (400/403) as well as from 401, 404, 200 and 500, so the busy outcome
is distinguishable from validation and execution failures. -/
theorem busy_branch_spec (cfg : Config) (fileSys : FileSystem)
    (locks : LockTable) (token : Option JsVal) (b : DeployBody)
    (run : RunOutcome)
    (hauth : authOk token cfg.deployReceiverToken = true)
    (hval : validateDeploy cfg b = none)
    (hdir : fileSys.dirExists (pathJoin cfg.appsRoot ((b.repo).getD ""))
      = true)
    (hfile : fileSys.fileExists
      (pathJoin (pathJoin cfg.appsRoot ((b.repo).getD "")) "deploy.sh")
      = true)
    (hexec : fileSys.executable
      (pathJoin (pathJoin cfg.appsRoot ((b.repo).getD "")) "deploy.sh")
      = true)
    (hheld : locks ((b.repo).getD "") = true) :
    handleDeploy cfg fileSys locks token b run =
      { status := 409, ok := false, repo := none, image := none, tag := none,
        output := none,
        error := some ("Deploy already in progress for " ++ (b.repo).getD ""),
        spawned := false, locks := locks } ∧
    (∀ e : DeployError, errorStatus e ≠ 409) := by
  constructor
  · simp [handleDeploy, hauth, hval, hdir, hfile, hexec, acquireLock, hheld]
  · intro e
    cases e <;> simp [errorStatus]

/-- C4 witness: the concrete request against a held lock, via
`busy_branch_spec`. -/
theorem busy_branch_spec_witness :
    (handleDeploy cfgW fsW (fun _ => true) (some (.str "s3cret")) bodyW
      (.completed (some 0) "OK" "")).status = 409 ∧
    (handleDeploy cfgW fsW (fun _ => true) (some (.str "s3cret")) bodyW
      (.completed (some 0) "OK" "")).spawned = false ∧
    (handleDeploy cfgW fsW (fun _ => true) (some (.str "s3cret")) bodyW
      (.completed (some 0) "OK" "")).locks = (fun _ => true) := by
  have h := (busy_branch_spec cfgW fsW (fun _ => true)
    (some (.str "s3cret")) bodyW (.completed (some 0) "OK" "")
    (by decide) (by decide) rfl rfl rfl rfl).1
  rw [h]
  exact ⟨rfl, rfl, rfl⟩

/-- C5: for every completed run reached by a locked request, exit code
exactly 0 yields the success response carrying ok, repo, image, tag and the
truncated stdout tail with no error field; every other completed outcome —
non-zero exit or signal death after timeout (`exitCode` none) — yields the
failure response carrying the truncated tail of stderr, falling back to
stdout when stderr is empty, with no output field; and no response of the
handler, on any input whatsoever, carries both an output and an error
field. -/
theorem response_shaping_spec (cfg : Config) (fileSys : FileSystem)
    (locks : LockTable) (token : Option JsVal) (b : DeployBody)
    (hauth : authOk token cfg.deployReceiverToken = true)
    (hval : validateDeploy cfg b = none)
    (hdir : fileSys.dirExists (pathJoin cfg.appsRoot ((b.repo).getD ""))
      = true)
    (hfile : fileSys.fileExists
      (pathJoin (pathJoin cfg.appsRoot ((b.repo).getD "")) "deploy.sh")
      = true)
    (hexec : fileSys.executable
      (pathJoin (pathJoin cfg.appsRoot ((b.repo).getD "")) "deploy.sh")
      = true)
    (hfree : locks ((b.repo).getD "") = false) :
    (∀ stdout stderr,
      handleDeploy cfg fileSys locks token b
        (.completed (some 0) stdout stderr) =
        { status := 200, ok := true, repo := some ((b.repo).getD ""),
          image := b.image, tag := b.tag,
          output := some (tail stdout cfg.maxOutputChars), error := none,
          spawned := true,
          locks := releaseLock ((b.repo).getD "")
            (acquireLock ((b.repo).getD "") locks).2 }) ∧
    (∀ (exitCode : Option Int) stdout stderr, exitCode ≠ some 0 →
      handleDeploy cfg fileSys locks token b
        (.completed exitCode stdout stderr) =
        { status := 500, ok := false, repo := some ((b.repo).getD ""),
          image := b.image, tag := b.tag, output := none,
          error := some (tail (jsOrStr stderr stdout) cfg.maxOutputChars),
          spawned := true,
          locks := releaseLock ((b.repo).getD "")
            (acquireLock ((b.repo).getD "") locks).2 }) ∧
    (∀ (cfg2 : Config) (fs2 : FileSystem) (locks2 : LockTable)
        (token2 : Option JsVal) (b2 : DeployBody) (run2 : RunOutcome),
      ¬((handleDeploy cfg2 fs2 locks2 token2 b2 run2).output.isSome ∧
        (handleDeploy cfg2 fs2 locks2 token2 b2 run2).error.isSome)) := by
  refine ⟨?_, ?_, ?_⟩
  · intro stdout stderr
    simp [handleDeploy, hauth, hval, hdir, hfile, hexec, acquireLock, hfree]
  · intro exitCode stdout stderr hec
    simp [handleDeploy, hauth, hval, hdir, hfile, hexec, acquireLock, hfree,
      hec]
  · intro cfg2 fs2 locks2 token2 b2 run2
    simp only [handleDeploy]
    split
    · simp
    · split
      · simp
      · split
        · simp
        · split
          · simp
          · split
            · simp
            · split
              · simp
              · split
                · split
                  · simp
                  · simp
                · simp

/-- C5 witness: the concrete request evaluated at exit code 0, at exit code
1 with empty stderr (stdout fallback), and at signal death, via
`response_shaping_spec`. -/
theorem response_shaping_spec_witness :
    (handleDeploy cfgW fsW (fun _ => false) (some (.str "s3cret")) bodyW
      (.completed (some 0) "OK" "")).output = some "OK" ∧
    (handleDeploy cfgW fsW (fun _ => false) (some (.str "s3cret")) bodyW
      (.completed (some 1) "partial" "")).error = some "partial" ∧
    (handleDeploy cfgW fsW (fun _ => false) (some (.str "s3cret")) bodyW
      (.completed none "" "killed")).error = some "killed" := by
  have hok := (response_shaping_spec cfgW fsW (fun _ => false)
    (some (.str "s3cret")) bodyW (by decide) (by decide) rfl rfl rfl rfl).1
  have herr := (response_shaping_spec cfgW fsW (fun _ => false)
    (some (.str "s3cret")) bodyW (by decide) (by decide) rfl rfl rfl rfl).2.1
  refine ⟨?_, ?_, ?_⟩
  · rw [hok "OK" ""]
    decide
  · rw [herr (some 1) "partial" "" (by decide)]
    decide
  · rw [herr none "" "killed" (by simp)]
    decide

/-- C7: the timeout ladder.  A process that exits within the configured
timeout produces its own exit code and no signal is ever sent (the `close`
handler clears the timer).  A process still running at the timeout receives
SIGTERM exactly then; one that also ignores it and has not exited by the
additional fixed 5000 ms grace interval receives SIGKILL at
`timeoutMs + 5000`, its `close` fires then with a signal (`none`) exit —
which the response shaping maps to a failure, never a success — and in
every case the run terminates no later than `timeoutMs + 5000`, never
hanging. -/
theorem timeout_ladder_spec (timeoutMs : Nat) (p : ProcSpec) :
    (exitsBy p timeoutMs = true →
      runTimeline timeoutMs p =
        { sigtermAt := none, sigkillAt := none,
          closeAt := (p.naturalExit).getD 0,
          exitCode := some p.exitCode }) ∧
    (exitsBy p timeoutMs = false →
      (runTimeline timeoutMs p).sigtermAt = some timeoutMs) ∧
    (exitsBy p (timeoutMs + 5000) = false → p.heedsSigterm = false →
      (runTimeline timeoutMs p).sigkillAt = some (timeoutMs + 5000) ∧
      (runTimeline timeoutMs p).closeAt = timeoutMs + 5000 ∧
      (runTimeline timeoutMs p).exitCode = none ∧
      (runTimeline timeoutMs p).exitCode ≠ some 0) ∧
    (runTimeline timeoutMs p).closeAt ≤ timeoutMs + 5000 := by
  refine ⟨?_, ?_, ?_, ?_⟩
  · intro h
    simp [runTimeline, h]
  · intro h
    by_cases hh : p.heedsSigterm = true
    · simp [runTimeline, h, hh]
    · simp only [Bool.not_eq_true] at hh
      by_cases h2 : exitsBy p (timeoutMs + 5000) = true
      · simp [runTimeline, h, hh, h2]
      · simp only [Bool.not_eq_true, ← Bool.not_eq_true] at h2
        simp only [Bool.not_eq_true] at h2
        simp [runTimeline, h, hh, h2]
  · intro hlate hdefiant
    have hnot : exitsBy p timeoutMs = false := by
      cases hne : p.naturalExit with
      | none => simp [exitsBy, hne]
      | some t =>
        simp only [exitsBy, hne] at hlate ⊢
        simp only [decide_eq_false_iff_not] at hlate ⊢
        omega
    simp [runTimeline, hnot, hdefiant, hlate]
  · cases hne : p.naturalExit with
    | none =>
      have h1 : exitsBy p timeoutMs = false := by simp [exitsBy, hne]
      have h2 : exitsBy p (timeoutMs + 5000) = false := by
        simp [exitsBy, hne]
      by_cases hh : p.heedsSigterm = true
      · simp [runTimeline, h1, hh]
      · simp only [Bool.not_eq_true] at hh
        simp [runTimeline, h1, h2, hh]
    | some t =>
      by_cases h1 : t ≤ timeoutMs
      · have hx : exitsBy p timeoutMs = true := by simp [exitsBy, hne, h1]
        simp [runTimeline, hx, hne]
        omega
      · have hx : exitsBy p timeoutMs = false := by
          simp [exitsBy, hne]
          omega
        by_cases hh : p.heedsSigterm = true
        · simp [runTimeline, hx, hh]
        · simp only [Bool.not_eq_true] at hh
          by_cases h2 : t ≤ timeoutMs + 5000
          · have hy : exitsBy p (timeoutMs + 5000) = true := by
              simp [exitsBy, hne, h2]
            simp [runTimeline, hx, hh, hy, hne]
            omega
          · have hy : exitsBy p (timeoutMs + 5000) = false := by
              simp [exitsBy, hne]
              omega
            simp [runTimeline, hx, hh, hy]

/-- C7 witness: a process that never exits and ignores SIGTERM, with a
180000 ms timeout, is SIGKILLed at 185000 ms and reported with a signal
exit; a process that exits at 1000 ms with code 0 receives no signal — via
`timeout_ladder_spec`. -/
theorem timeout_ladder_spec_witness :
    (runTimeline 180000
      { naturalExit := none, exitCode := 1, heedsSigterm := false }).sigkillAt
        = some 185000 ∧
    (runTimeline 180000
      { naturalExit := none, exitCode := 1, heedsSigterm := false }).exitCode
        = none ∧
    runTimeline 180000
      { naturalExit := some 1000, exitCode := 0, heedsSigterm := true } =
      { sigtermAt := none, sigkillAt := none, closeAt := 1000,
        exitCode := some 0 } := by
  have hkill := (timeout_ladder_spec 180000
    { naturalExit := none, exitCode := 1, heedsSigterm := false }).2.2.1
    (by decide) rfl
  have hnat := (timeout_ladder_spec 180000
    { naturalExit := some 1000, exitCode := 0, heedsSigterm := true }).1
    (by decide)
  exact ⟨hkill.1, hkill.2.2.1, hnat⟩
